import Mathlib

/-!
Shallow embedding of the gravity-js SDK (Try-Gravity/gravity-js).

The embedding covers:
* the v1 API client (`src/packages/api/client.ts`): constructor, request-body
  assembly and response normalization of `Client.getAd`, plus `handleError`;
* the legacy API client (`src/unnamed/part_010`, an earlier revision of
  `client.ts`): same structure but with a per-call `apiKey` body field and a
  `||`-based constructor default for `relevancy`;
* the render phase of the two-phase bid/render flow (types exist in the repo,
  the client method itself is modelled from the spec);
* the React tracking hook (`src/packages/react/src/hooks/useAdTracking.ts`)
  as a step function over render traces with React effect-dependency
  semantics;
* the display components `AdText` (`src/packages/react/src/components/AdText.tsx`)
  and `AdBanner` (`src/unnamed/part_009`) as render and click-event functions.

JavaScript optionality is modelled explicitly: a field of TypeScript type
`T | undefined` is `Option T`; a field of type `number | null | undefined` is
`Option (Option ℚ)` (`none` = undefined/absent, `some none` = null,
`some (some q)` = a number).  Numbers are ℚ.  `x ?? y` and `x || y` are
modelled by dedicated helpers reflecting nullish-coalescing vs falsiness.
-/

namespace Gravity

/-- Message role (`types.ts`: `type Role = 'user' | 'assistant'`). -/
inductive Role where
  | user
  | assistant
deriving DecidableEq, Repr

/-- A conversation message (`types.ts`: `MessageObject`). -/
structure MessageObject where
  role : Role
  content : String
deriving DecidableEq, Repr

/-- A `number | null | undefined` JavaScript value:
`none` = undefined (field absent), `some none` = null, `some (some q)` = number. -/
abbrev NumParam := Option (Option ℚ)

/-- JavaScript `x ?? d` for `x : number | null | undefined` with default
`d : number | null`: only a genuine number short-circuits. -/
def nullishNum (x : NumParam) (d : Option ℚ) : Option ℚ :=
  match x with
  | some (some q) => some q
  | _ => d

/-- JavaScript `x || null` for `x : number | null | undefined`: a falsy value
(undefined, null, or 0) becomes null.  Used by the legacy constructor
(`part_010` line 25: `this.relevancy = params.relevancy || null`). -/
def jsOrNullNum (x : NumParam) : Option ℚ :=
  match x with
  | some (some q) => if q = 0 then none else some q
  | _ => none

/-- JavaScript `x || d` for `x : string | undefined`: the empty string is
falsy.  Used for `params.endpoint || DEFAULT_ENDPOINT`. -/
def jsOrStr (x : Option String) (d : String) : String :=
  match x with
  | some s => if s = "" then d else s
  | none => d

/-- `const DEFAULT_ENDPOINT = 'https://server.trygravity.ai'` (`client.ts` line 37). -/
def DEFAULT_ENDPOINT : String := "https://server.trygravity.ai"

/-- Constructor options (`ClientParams` in both client revisions). -/
structure ClientParams where
  endpoint : Option String := none
  excludedTopics : Option (List String) := none
  relevancy : NumParam := none
deriving DecidableEq, Repr

/-- State of a constructed v1 `Client` (`client.ts` lines 76-126), including
the `Authorization` header installed on the axios instance. -/
structure ClientV1 where
  apiKey : String
  endpoint : String
  excludedTopics : List String
  relevancy : Option ℚ
  authHeader : String
deriving DecidableEq, Repr

/-- The v1 `Client` constructor (`client.ts` lines 112-126):
`endpoint = params.endpoint || DEFAULT_ENDPOINT`,
`excludedTopics = params.excludedTopics || []`,
`relevancy = params.relevancy ?? null`,
axios headers `Authorization: Bearer <apiKey>`. -/
def mkClientV1 (apiKey : String) (params : ClientParams) : ClientV1 :=
  { apiKey := apiKey
    endpoint := jsOrStr params.endpoint DEFAULT_ENDPOINT
    excludedTopics := params.excludedTopics.getD []
    relevancy := nullishNum params.relevancy none
    authHeader := "Bearer " ++ apiKey }

/-- State of a constructed legacy `Client` (`part_010` lines 14-34). -/
structure ClientLegacy where
  apiKey : String
  endpoint : String
  excludedTopics : List String
  relevancy : Option ℚ
  authHeader : String
deriving DecidableEq, Repr

/-- The legacy `Client` constructor (`part_010` lines 21-34): identical to the
v1 constructor except `relevancy = params.relevancy || null`, which maps any
falsy configured value (including 0) to null. -/
def mkClientLegacy (apiKey : String) (params : ClientParams) : ClientLegacy :=
  { apiKey := apiKey
    endpoint := jsOrStr params.endpoint DEFAULT_ENDPOINT
    excludedTopics := params.excludedTopics.getD []
    relevancy := jsOrNullNum params.relevancy
    authHeader := "Bearer " ++ apiKey }

/-- Per-call request parameters (`AdParams`), restricted to the fields the
clients read or forward and that the claims are about.  `apiKey` is declared
in the legacy `AdParams` and reaches the v1 body only through the spread of
open-ended fields. -/
structure AdParams where
  messages : List MessageObject := []
  sessionId : Option String := none
  apiKey : Option String := none
  excludedTopics : Option (List String) := none
  relevancy : NumParam := none
deriving DecidableEq, Repr

/-- The assembled outgoing JSON body.  `none` in an `Option` field means the
key is absent from the serialized body; `some none` for `relevancy` means the
key is present with value null. -/
structure AdBody where
  messages : List MessageObject
  sessionId : Option String
  apiKey : Option String
  excludedTopics : Option (List String)
  relevancy : NumParam
deriving DecidableEq, Repr

/-- Body assembled by the v1 `getAd` (`client.ts` lines 188-192):
`{ ...params, excludedTopics: params.excludedTopics ?? this.excludedTopics,
relevancy: params.relevancy ?? this.relevancy }`.  No `apiKey` is added; it
appears only if the caller put one in `params`. -/
def bodyV1 (c : ClientV1) (p : AdParams) : AdBody :=
  { messages := p.messages
    sessionId := p.sessionId
    apiKey := p.apiKey
    excludedTopics := some (p.excludedTopics.getD c.excludedTopics)
    relevancy := some (nullishNum p.relevancy c.relevancy) }

/-- Body assembled by the legacy `getAd` (`part_010` lines 43-51):
additionally `apiKey: params.apiKey ?? this.apiKey`. -/
def bodyLegacy (c : ClientLegacy) (p : AdParams) : AdBody :=
  { messages := p.messages
    sessionId := p.sessionId
    apiKey := some (p.apiKey.getD c.apiKey)
    excludedTopics := some (p.excludedTopics.getD c.excludedTopics)
    relevancy := some (nullishNum p.relevancy c.relevancy) }

/-- One ad object as it appears on the wire; every field optional, since the
client performs its own runtime checks on the raw payload. -/
structure WireAd where
  adText : Option String := none
  adId : Option String := none
  title : Option String := none
  impUrl : Option String := none
  clickUrl : Option String := none
  payout : Option ℚ := none
deriving DecidableEq, Repr

/-- The documented v1 response object shape
`{ ads: Ad[], numAds: number, totalPayout?: number }`. -/
structure WireAdResponse where
  ads : List WireAd
  numAds : ℕ
  totalPayout : Option ℚ := none
deriving DecidableEq, Repr

/-- Possible JSON bodies of a resolved v1 response: a JSON array of ads, a
JSON object of the documented `AdResponse` shape, an empty/absent (falsy)
body, or any other truthy non-array value. -/
inductive DataV1 where
  | jarr (ads : List WireAd)
  | jobj (r : WireAdResponse)
  | jempty
  | jother
deriving DecidableEq, Repr

/-- Possible JSON bodies of a resolved legacy response: a JSON object (whose
`adText` access is meaningful), an empty/absent (falsy) body, or any other
truthy value (on which `.adText` is undefined). -/
inductive DataLegacy where
  | jobj (ad : WireAd)
  | jempty
  | jother
deriving DecidableEq, Repr

/-- The shape of a thrown error, as `handleError` discriminates it
(`client.ts` lines 222-247): an axios error carrying a response (HTTP 4xx/5xx
status), an axios error with a request but no response (network), an axios
setup error, or a non-axios error. -/
inductive ErrKind where
  | http (status : ℕ)
  | network
  | setup
  | nonAxios
deriving DecidableEq, Repr

/-- Outcome of the underlying axios POST: either a resolved response (2xx
status with a data payload) or a thrown error. -/
inductive Outcome (α : Type) where
  | ok (status : ℕ) (data : α)
  | err (e : ErrKind)
deriving DecidableEq, Repr

/-- A `console.error` entry produced by `handleError`. -/
inductive LogEntry where
  | apiError (method : String) (status : ℕ)
  | networkError (method : String)
  | requestError (method : String)
  | unexpectedError (method : String)
deriving DecidableEq, Repr

/-- `Client.handleError` (`client.ts` lines 222-247, identical in
`part_010` lines 79-104): logs one entry for every error kind. -/
def handleError (method : String) : ErrKind → LogEntry
  | .http s => .apiError method s
  | .network => .networkError method
  | .setup => .requestError method
  | .nonAxios => .unexpectedError method

/-- Result of one client call: the issued request (auth header and body) and
the normalized outcome (value-or-null plus any error log entries). -/
structure CallResult (α : Type) where
  authHeader : String
  body : AdBody
  result : Option α
  logs : List LogEntry
deriving DecidableEq, Repr

/-- Response normalization of the v1 `Client.getAd` (`client.ts` lines
194-208): `if (response.status === 204) return null;`
`if (response.data && Array.isArray(response.data) && response.data.length > 0)
return response.data; return null;`, with any thrown error routed through
`handleError` and `null` returned. -/
def normalizeV1 (o : Outcome DataV1) : Option (List WireAd) × List LogEntry :=
  match o with
  | .ok status data =>
    if status = 204 then (none, [])
    else
      match data with
      | .jarr ads => if 0 < ads.length then (some ads, []) else (none, [])
      | _ => (none, [])
  | .err e => (none, [handleError "getAd" e])

/-- The v1 `Client.getAd` (`client.ts` lines 186-209): assembles the body
(lines 188-192), POSTs it to `/api/v1/ad/contextual` with the client's
`Authorization` header, and normalizes the outcome via `normalizeV1`. -/
def getAdV1 (c : ClientV1) (p : AdParams) (o : Outcome DataV1) :
    CallResult (List WireAd) :=
  { authHeader := c.authHeader
    body := bodyV1 c p
    result := (normalizeV1 o).1
    logs := (normalizeV1 o).2 }

/-- The normalized single-ad object constructed by the legacy `getAd`
(`part_010` lines 59-64). -/
structure LegacyAdResult where
  adText : String
  impUrl : Option String := none
  clickUrl : Option String := none
  payout : Option ℚ := none
deriving DecidableEq, Repr

/-- Response normalization of the legacy `Client.getAd` (`part_010` lines
52-71): null on 204, the picked `{adText, impUrl, clickUrl, payout}` object
only when `response.data && response.data.adText` is truthy (a present,
non-empty string), null on the fall-through, and errors routed through
`handleError` with null returned. -/
def normalizeLegacy (o : Outcome DataLegacy) :
    Option LegacyAdResult × List LogEntry :=
  match o with
  | .ok status data =>
    if status = 204 then (none, [])
    else
      match data with
      | .jobj ad =>
        match ad.adText with
        | some t =>
          if t = "" then (none, [])
          else (some ⟨t, ad.impUrl, ad.clickUrl, ad.payout⟩, [])
        | none => (none, [])
      | _ => (none, [])
  | .err e => (none, [handleError "getAd" e])

/-- The legacy `Client.getAd` (`part_010` lines 41-72): assembles the body
(lines 43-51), POSTs it to `/ad` with the client's `Authorization` header,
and normalizes the outcome via `normalizeLegacy`. -/
def getAdLegacy (c : ClientLegacy) (p : AdParams) (o : Outcome DataLegacy) :
    CallResult LegacyAdResult :=
  { authHeader := c.authHeader
    body := bodyLegacy c p
    result := (normalizeLegacy o).1
    logs := (normalizeLegacy o).2 }

/-- Parameters of the render phase (`RenderParams` in the v1 types). -/
structure RenderParams where
  bidId : String
  realizedPrice : ℚ
deriving DecidableEq, Repr

/-- Modelled from the spec: the client method for the two-phase render call
(`POST /api/v1/render`) is not present under `src/` — only its parameter and
response types (`RenderParams`, `BidResponse`) are declared there.  Per the
spec's response-normalizer rules, in priority order: a 204 outcome yields
null; an HTTP 404 outcome on the render call yields null and is NOT logged
as an error (expired bid handle); any other thrown/HTTP-error outcome is
logged through the shared error handler and yields null; a successful payload
lacking the ad-copy field yields null; otherwise the normalized ad result is
returned. -/
def render (p : RenderParams) (o : Outcome DataLegacy) :
    Option LegacyAdResult × List LogEntry :=
  match o with
  | .ok status data =>
    if status = 204 then (none, [])
    else
      match data with
      | .jobj ad =>
        match ad.adText with
        | some t =>
          if t = "" then (none, [])
          else (some ⟨t, ad.impUrl, ad.clickUrl, ad.payout⟩, [])
        | none => (none, [])
      | _ => (none, [])
  | .err (.http 404) => (none, [])
  | .err e => (none, [handleError "render" e])

/-- The `ad` prop value seen by `useAdTracking`.  `key` stands for the object
reference identity: React compares effect dependencies with `Object.is`, so
two renders see "the same ad" exactly when the prop is the same object. -/
structure TrackedAd where
  key : ℕ
  impUrl : Option String := none
  clickUrl : Option String := none
deriving DecidableEq, Repr

/-- Props of one render of a component using `useAdTracking`.
`onImpressionKey` is the reference identity of the `onImpression` callback,
which is part of the first effect's dependency array. -/
structure TrackProps where
  ad : Option TrackedAd
  disableImpressionTracking : Bool := false
  onImpressionKey : ℕ := 0
deriving DecidableEq, Repr

/-- Dependency array of the impression effect
(`useAdTracking.ts` line 42: `[ad, disableImpressionTracking, onImpression]`). -/
def deps1 (p : TrackProps) : Option TrackedAd × Bool × ℕ :=
  (p.ad, p.disableImpressionTracking, p.onImpressionKey)

/-- Dependency array of the reset effect
(`useAdTracking.ts` line 47: `[ad?.impUrl]`). -/
def deps2 (p : TrackProps) : Option String :=
  p.ad.bind (·.impUrl)

/-- Body of the impression effect (`useAdTracking.ts` lines 23-42): bail out
when there is no ad, no impression URL, tracking is disabled, or the latch is
already set; otherwise fire an Image beacon at the impression URL and set the
latch.  Returns the new latch value and the beacons fired. -/
def impressionEffect (p : TrackProps) (tracked : Bool) : Bool × List String :=
  match p.ad with
  | none => (tracked, [])
  | some a =>
    match a.impUrl with
    | none => (tracked, [])
    | some u =>
      if p.disableImpressionTracking || tracked then (tracked, [])
      else (true, [u])

/-- Hook state across renders: the `impressionTracked` ref plus the
previously seen dependency arrays of the two effects (`none` before mount). -/
structure TrackState where
  impressionTracked : Bool := false
  prevDeps1 : Option (Option TrackedAd × Bool × ℕ) := none
  prevDeps2 : Option (Option String) := none
deriving DecidableEq, Repr

/-- One render of `useAdTracking` under React effect semantics: after the
render, each effect body runs iff this is the first render or its dependency
array changed, in declaration order — the impression effect
(lines 23-42) first, then the reset effect (lines 45-47), which sets
`impressionTracked.current = false`. -/
def stepTracking (s : TrackState) (p : TrackProps) : TrackState × List String :=
  let (tracked1, beacons) :=
    if s.prevDeps1 = some (deps1 p) then (s.impressionTracked, [])
    else impressionEffect p s.impressionTracked
  let tracked2 :=
    if s.prevDeps2 = some (deps2 p) then tracked1
    else false
  (⟨tracked2, some (deps1 p), some (deps2 p)⟩, beacons)

/-- Run a sequence of renders from the initial (mount) state, collecting the
impression beacons fired, in order. -/
def runTracking (ps : List TrackProps) : TrackState × List String :=
  ps.foldl
    (fun acc p =>
      let step := stepTracking acc.1 p
      (step.1, acc.2 ++ step.2))
    (⟨false, none, none⟩, [])

/-- The impression beacons (Image `src` URLs) fired over a render trace. -/
def trackBeacons (ps : List TrackProps) : List String :=
  (runTracking ps).2

/-- The ad value consumed by the display components (`adText` required by the
render path actually used; tracking URLs optional). -/
structure AdView where
  adText : String
  impUrl : Option String := none
  clickUrl : Option String := none
deriving DecidableEq, Repr

/-- Abstracted render output of a display component: the caller-supplied
fallback (ad null), an anchor element with an optional `href`, or a plain
non-interactive span. -/
inductive Rendered where
  | fallback
  | anchor (href : Option String) (text : String)
  | span (text : String)
deriving DecidableEq, Repr

/-- `AdText` rendering (`AdText.tsx` lines 44-85): fallback when the ad is
null; an `<a href={ad.clickUrl}>` with the ad text when `ad.clickUrl` exists;
otherwise a plain `<span>` with the ad text (no click handler attached). -/
def renderAdText (ad : Option AdView) : Rendered :=
  match ad with
  | none => .fallback
  | some a =>
    match a.clickUrl with
    | some u => .anchor (some u) a.adText
    | none => .span a.adText

/-- `AdBanner` rendering (`part_009` lines 62-129): fallback when the ad is
null; otherwise always an `<a>` element with the ad text, whose `href` is set
from `linkProps` only when `ad.clickUrl` exists (lines 106-112). -/
def renderAdBanner (ad : Option AdView) : Rendered :=
  match ad with
  | none => .fallback
  | some a => .anchor a.clickUrl a.adText

/-- An observable user-interaction event: a caller-supplied callback firing,
or browser navigation to a URL. -/
inductive UiEvent where
  | callback (name : String)
  | navigate (url : String)
deriving DecidableEq, Repr

/-- `useAdTracking`'s `handleClick` (`useAdTracking.ts` lines 50-55):
`if (!ad?.clickUrl) return; onClickTracked?.()`. -/
def handleClickHook (ad : AdView) : List UiEvent :=
  match ad.clickUrl with
  | some _ => [.callback "onClickTracked"]
  | none => []

/-- `handleClickInternal` of both components (`AdText.tsx` lines 48-55,
`part_009` lines 96-104): run `handleClick()`, then the caller's `onClick`,
and call `e.preventDefault()` iff the ad has no `clickUrl`.  Returns the
callback events in order and whether default navigation was prevented. -/
def handleClickInternal (ad : AdView) : List UiEvent × Bool :=
  (handleClickHook ad ++ [.callback "onClick"], ad.clickUrl.isNone)

/-- Browser activation semantics of an element: the attached click handler
(if any) runs first, then default navigation follows the `href` unless the
handler prevented it or there is no `href`. -/
def activateElement (href : Option String) (handler : Option (List UiEvent × Bool)) :
    List UiEvent :=
  match handler with
  | none => []
  | some (evs, prevented) =>
    evs ++
      match href with
      | some u => if prevented then [] else [.navigate u]
      | none => []

/-- Events observed when the output of `AdText` for `ad` is activated: the
anchor branch carries `handleClickInternal`; the span branch has no handler
and no `href`. -/
def clickAdText (ad : AdView) : List UiEvent :=
  match ad.clickUrl with
  | some u => activateElement (some u) (some (handleClickInternal ad))
  | none => activateElement none none

/-- Events observed when the output of `AdBanner` for `ad` is activated: an
anchor whose `href` is present iff `ad.clickUrl` is, always carrying
`handleClickInternal`. -/
def clickAdBanner (ad : AdView) : List UiEvent :=
  activateElement ad.clickUrl (some (handleClickInternal ad))

/-- C1: the claim says that when the server answers a v1 `getAd` call with
HTTP 200 and a body of the documented shape
`{ads: [...], numAds: n, totalPayout?}`, the client returns that object
unchanged.  Evaluating the embedded v1 `getAd` at exactly the spec's scenario
input (messages `[user: 'hiking trails']`, sessionId `'s1'`, server body
`{ads:[{adText:'Buy boots',adId:'a1',impUrl:'https://t/i',clickUrl:'https://t/c'}],numAds:1}`)
shows the client returns null instead: `client.ts` line 200 only accepts a
body that is itself a non-empty JSON array (`Array.isArray(response.data)`),
so the documented object shape — the one the package README, the v1 types
and the claim describe — is rejected.  For contrast, the same payload
delivered as a bare array is returned unchanged. -/
theorem getAdV1_rejects_documented_object_body :
    (getAdV1 (mkClientV1 "k" {})
        { messages := [⟨.user, "hiking trails"⟩], sessionId := some "s1" }
        (.ok 200 (.jobj
          ⟨[{ adText := some "Buy boots", adId := some "a1",
              impUrl := some "https://t/i", clickUrl := some "https://t/c" }],
            1, none⟩))).result = none ∧
    (getAdV1 (mkClientV1 "k" {})
        { messages := [⟨.user, "hiking trails"⟩], sessionId := some "s1" }
        (.ok 200 (.jarr
          [{ adText := some "Buy boots", adId := some "a1",
             impUrl := some "https://t/i", clickUrl := some "https://t/c" }]))).result
      = some
          [{ adText := some "Buy boots", adId := some "a1",
             impUrl := some "https://t/i", clickUrl := some "https://t/c" }] := by
  constructor <;> rfl

/-- C2 counterexample: the claim's third branch says that when neither a
per-call value nor a client-level default was provided, the excluded-topics
and relevancy fields are absent from the outgoing body.  For a client
constructed with no options and a call providing neither field, both clients
still emit both keys: excluded topics as the empty array and relevancy as
null (the constructors default the stored values to `[]` and `null`, and the
body assembly always assigns both keys). -/
theorem body_fields_present_when_unconfigured :
    (bodyV1 (mkClientV1 "k" {}) {}).excludedTopics = some [] ∧
    (bodyV1 (mkClientV1 "k" {}) {}).relevancy = some none ∧
    (bodyV1 (mkClientV1 "k" {}) {}).excludedTopics ≠ none ∧
    (bodyV1 (mkClientV1 "k" {}) {}).relevancy ≠ none ∧
    (bodyLegacy (mkClientLegacy "k" {}) {}).excludedTopics = some [] ∧
    (bodyLegacy (mkClientLegacy "k" {}) {}).relevancy = some none ∧
    (bodyLegacy (mkClientLegacy "k" {}) {}).excludedTopics ≠ none ∧
    (bodyLegacy (mkClientLegacy "k" {}) {}).relevancy ≠ none := by
  refine ⟨rfl, rfl, ?_, ?_, rfl, rfl, ?_, ?_⟩ <;> simp [bodyV1, bodyLegacy]

/-- C2 as amended: in every request assembled by the v1 and the legacy
`getAd`, the excluded-topics field of the outgoing body equals the per-call
value if one was provided, otherwise the stored client-level default; the
same holds for the relevancy field (where providing an explicit null per
call also falls through to the default, per `??`); and both fields are
always present in the body — when nothing was configured they are sent as
the empty list and null respectively, never omitted. -/
theorem body_merge_rule (ck : String) (cp : ClientParams) (p : AdParams) :
    (∀ l, p.excludedTopics = some l →
      (bodyV1 (mkClientV1 ck cp) p).excludedTopics = some l ∧
      (bodyLegacy (mkClientLegacy ck cp) p).excludedTopics = some l) ∧
    (∀ q, p.relevancy = some (some q) →
      (bodyV1 (mkClientV1 ck cp) p).relevancy = some (some q) ∧
      (bodyLegacy (mkClientLegacy ck cp) p).relevancy = some (some q)) ∧
    (p.excludedTopics = none →
      (bodyV1 (mkClientV1 ck cp) p).excludedTopics
          = some (mkClientV1 ck cp).excludedTopics ∧
      (bodyLegacy (mkClientLegacy ck cp) p).excludedTopics
          = some (mkClientLegacy ck cp).excludedTopics) ∧
    (p.relevancy = none ∨ p.relevancy = some none →
      (bodyV1 (mkClientV1 ck cp) p).relevancy
          = some (mkClientV1 ck cp).relevancy ∧
      (bodyLegacy (mkClientLegacy ck cp) p).relevancy
          = some (mkClientLegacy ck cp).relevancy) ∧
    (bodyV1 (mkClientV1 ck cp) p).excludedTopics ≠ none ∧
    (bodyV1 (mkClientV1 ck cp) p).relevancy ≠ none ∧
    (bodyLegacy (mkClientLegacy ck cp) p).excludedTopics ≠ none ∧
    (bodyLegacy (mkClientLegacy ck cp) p).relevancy ≠ none := by
  refine ⟨fun l hl => ?_, fun q hq => ?_, fun h => ?_, fun h => ?_, ?_, ?_, ?_, ?_⟩
  · simp [bodyV1, bodyLegacy, hl]
  · simp [bodyV1, bodyLegacy, nullishNum, hq]
  · simp [bodyV1, bodyLegacy, h]
  · rcases h with h | h <;> simp [bodyV1, bodyLegacy, nullishNum, h]
  · simp [bodyV1]
  · simp [bodyV1]
  · simp [bodyLegacy]
  · simp [bodyLegacy]

/-- Witness for `body_merge_rule`: instantiated at a client configured with
topics `["politics"]` and relevancy 1, and a call overriding topics with
`["x"]` while omitting relevancy. -/
theorem body_merge_rule_witness :
    (bodyV1
        (mkClientV1 "k"
          { excludedTopics := some ["politics"], relevancy := some (some 1) })
        { excludedTopics := some ["x"] }).excludedTopics = some ["x"] ∧
    (bodyLegacy
        (mkClientLegacy "k"
          { excludedTopics := some ["politics"], relevancy := some (some 1) })
        { excludedTopics := some ["x"] }).relevancy = some (some 1) := by
  have h := body_merge_rule "k"
    { excludedTopics := some ["politics"], relevancy := some (some 1) }
    { excludedTopics := some ["x"] }
  exact ⟨(h.1 ["x"] rfl).1, ((h.2.2.2.1 (Or.inl rfl)).2).trans (by rfl)⟩

/-- C3: for every client state, every set of call parameters and every thrown
outcome of the underlying HTTP call (HTTP-error response, network error,
request-setup error, or a non-axios error), both the v1 and the legacy
`getAd` return null and emit exactly the corresponding error log entry — the
error is never propagated to the caller, so every invocation resolves to a
value or null. -/
theorem getAd_error_never_propagates (cv : ClientV1) (cl : ClientLegacy)
    (p q : AdParams) (e : ErrKind) :
    (getAdV1 cv p (.err e)).result = none ∧
    (getAdV1 cv p (.err e)).logs = [handleError "getAd" e] ∧
    (getAdLegacy cl q (.err e)).result = none ∧
    (getAdLegacy cl q (.err e)).logs = [handleError "getAd" e] :=
  ⟨rfl, rfl, rfl, rfl⟩

/-- C4: for every client state, call parameters and response body, an HTTP
204 (no content) response makes both ad-fetch variants present in the source
(the v1 and the legacy `getAd`) return null, with nothing logged. -/
theorem getAd_204_yields_null (cv : ClientV1) (cl : ClientLegacy)
    (p q : AdParams) (d1 : DataV1) (d2 : DataLegacy) :
    (getAdV1 cv p (.ok 204 d1)).result = none ∧
    (getAdV1 cv p (.ok 204 d1)).logs = [] ∧
    (getAdLegacy cl q (.ok 204 d2)).result = none ∧
    (getAdLegacy cl q (.ok 204 d2)).logs = [] := by
  refine ⟨?_, ?_, ?_, ?_⟩ <;> simp [getAdV1, getAdLegacy, normalizeV1, normalizeLegacy]

/-- C5 counterexample: the claim says a successful payload missing the
required ad-copy field yields null for every `getAd`.  The v1 `getAd`
performs no per-ad validation: a 200 response whose body is the one-element
array `[{adId:'x'}]` — with no `adText` at all — is returned as-is, a
non-null result that is not a well-formed ad. -/
theorem getAdV1_returns_ad_without_adText :
    (getAdV1 (mkClientV1 "k" {}) {}
        (.ok 200 (.jarr [{ adId := some "x" }]))).result
      = some [{ adId := some "x" }] ∧
    (getAdV1 (mkClientV1 "k" {}) {}
        (.ok 200 (.jarr [{ adId := some "x" }]))).result ≠ none := by
  constructor
  · rfl
  · simp [getAdV1, normalizeV1]

/-- C5 as amended: the legacy `getAd` validates the ad copy — a 200 payload
whose `adText` is missing or empty, or whose body is not an object, yields
null; the v1 `getAd` yields null on every 200 body that is not a non-empty
array (empty array, the documented object shape, empty or other bodies), but
it returns any non-empty array unchanged without validating the ad-copy
field of its elements. -/
theorem getAd_copy_validation (cv : ClientV1) (cl : ClientLegacy)
    (p q : AdParams) :
    (∀ ad : WireAd, ad.adText = none →
      (getAdLegacy cl q (.ok 200 (.jobj ad))).result = none) ∧
    (∀ ad : WireAd, ad.adText = some "" →
      (getAdLegacy cl q (.ok 200 (.jobj ad))).result = none) ∧
    (getAdLegacy cl q (.ok 200 .jempty)).result = none ∧
    (getAdLegacy cl q (.ok 200 .jother)).result = none ∧
    (getAdV1 cv p (.ok 200 (.jarr []))).result = none ∧
    (∀ r, (getAdV1 cv p (.ok 200 (.jobj r))).result = none) ∧
    (getAdV1 cv p (.ok 200 .jempty)).result = none ∧
    (getAdV1 cv p (.ok 200 .jother)).result = none ∧
    (∀ ads, ads ≠ [] →
      (getAdV1 cv p (.ok 200 (.jarr ads))).result = some ads) := by
  refine ⟨fun ad h => ?_, fun ad h => ?_, ?_, ?_, ?_, fun r => ?_, ?_, ?_,
    fun ads h => ?_⟩ <;>
    simp [getAdV1, getAdLegacy, normalizeV1, normalizeLegacy, *,
      List.length_pos]

/-- Witness for `getAd_copy_validation`: instantiated at concrete clients, a
concrete ad with empty `adText`, and the concrete one-element array
`[{adText:'Buy boots'}]`. -/
theorem getAd_copy_validation_witness :
    (getAdLegacy (mkClientLegacy "k" {}) {}
        (.ok 200 (.jobj { adText := some "" }))).result = none ∧
    (getAdV1 (mkClientV1 "k" {}) {}
        (.ok 200 (.jarr [{ adText := some "Buy boots" }]))).result
      = some [{ adText := some "Buy boots" }] := by
  have h := getAd_copy_validation (mkClientV1 "k" {}) (mkClientLegacy "k" {})
    {} {}
  exact ⟨h.2.1 { adText := some "" } rfl,
    h.2.2.2.2.2.2.2.2 [{ adText := some "Buy boots" }] (by simp)⟩

/-- C6: a 404 outcome of the render-phase call yields null with no error
logged, while a 404 outcome of any other call — here both `getAd` variants —
is logged as an API error and yields null.  The render method itself is
absent from the source tree (only its parameter and response types are
declared), so it is modelled from the spec's normalizer rules; the `getAd`
half follows the source `handleError`. -/
theorem render_404_silent_getAd_404_logged (rp : RenderParams)
    (cv : ClientV1) (cl : ClientLegacy) (p q : AdParams) :
    render rp (.err (.http 404)) = (none, []) ∧
    (getAdV1 cv p (.err (.http 404))).result = none ∧
    (getAdV1 cv p (.err (.http 404))).logs = [.apiError "getAd" 404] ∧
    (getAdLegacy cl q (.err (.http 404))).result = none ∧
    (getAdLegacy cl q (.err (.http 404))).logs = [.apiError "getAd" 404] :=
  ⟨rfl, rfl, rfl, rfl, rfl⟩

/-- C7: the claim says changing to a different ad resets the impression
latch so that one beacon fires for each new ad.  Evaluating the embedded
hook on a mount followed by two ad changes — three distinct ad objects that
share the impression URL `'u'` — fires only two beacons: the reset effect's
dependency array is `[ad?.impUrl]`, so changing to a different ad with an
unchanged impression URL does not reset the latch (despite the source
comment "Reset impression tracking when ad changes"), and the third ad gets
no beacon. -/
theorem useAdTracking_misses_beacon_for_third_ad :
    trackBeacons
        [{ ad := some ⟨0, some "u", none⟩ },
         { ad := some ⟨1, some "u", none⟩ },
         { ad := some ⟨2, some "u", none⟩ }]
      = ["u", "u"] := by
  rfl

/-- C8: for every non-null ad, `AdText` and `AdBanner` render the ad copy as
a clickable element linking to the click-through URL when that URL exists —
and activating it fires the caller's click callbacks (`onClickTracked`, then
`onClick`) before the navigation to that URL; when no click-through URL
exists, `AdText` renders a plain span and `AdBanner` an anchor without
`href`, and activation fires no navigation (default navigation is
suppressed via `preventDefault`, and there is no `href` to follow). -/
theorem components_click_contract (a : AdView) :
    (∀ u, a.clickUrl = some u →
      renderAdText (some a) = .anchor (some u) a.adText ∧
      renderAdBanner (some a) = .anchor (some u) a.adText ∧
      clickAdText a
        = [.callback "onClickTracked", .callback "onClick", .navigate u] ∧
      clickAdBanner a
        = [.callback "onClickTracked", .callback "onClick", .navigate u]) ∧
    (a.clickUrl = none →
      renderAdText (some a) = .span a.adText ∧
      renderAdBanner (some a) = .anchor none a.adText ∧
      clickAdText a = [] ∧
      clickAdBanner a = [.callback "onClick"]) := by
  refine ⟨fun u hu => ?_, fun h => ?_⟩ <;>
    refine ⟨?_, ?_, ?_, ?_⟩ <;>
      simp [renderAdText, renderAdBanner, clickAdText, clickAdBanner,
        activateElement, handleClickInternal, handleClickHook, *]

/-- Witness for `components_click_contract`: instantiated at the spec
scenario's ad (`'Buy boots'` linking to `'https://t/c'`) and at an ad with
no click-through URL. -/
theorem components_click_contract_witness :
    clickAdText ⟨"Buy boots", some "https://t/i", some "https://t/c"⟩
      = [.callback "onClickTracked", .callback "onClick",
         .navigate "https://t/c"] ∧
    renderAdText (some ⟨"Plain", none, none⟩) = .span "Plain" ∧
    clickAdBanner ⟨"Plain", none, none⟩ = [.callback "onClick"] := by
  refine ⟨?_, ?_, ?_⟩
  · exact ((components_click_contract
      ⟨"Buy boots", some "https://t/i", some "https://t/c"⟩).1
        "https://t/c" rfl).2.2.1
  · exact ((components_click_contract ⟨"Plain", none, none⟩).2 rfl).1
  · exact ((components_click_contract ⟨"Plain", none, none⟩).2 rfl).2.2.2

/-- C9 counterexample: the claim says every request carries the
authentication credential in its body.  A v1 `getAd` request built from
parameters that do not themselves smuggle in an `apiKey` has no credential
field in its body at all — the v1 client puts the bearer token only in the
`Authorization` header. -/
theorem v1_body_lacks_credential :
    (bodyV1 (mkClientV1 "k" {})
        { messages := [⟨.user, "hiking trails"⟩], sessionId := some "s1" }).apiKey
      = none := by
  rfl

/-- C9 as amended: every request of both clients carries the credential as a
bearer token in the `Authorization` header fixed at construction; the legacy
variant additionally places an `apiKey` in the body, where a per-call
`apiKey` takes precedence over the constructor's key; the v1 variant adds no
`apiKey` to its body (the body holds one only if the caller passed one in
the open-ended parameters) and offers no per-call override of the header. -/
theorem auth_credential_placement (ck : String) (cp : ClientParams)
    (p : AdParams) (o1 : Outcome DataV1) (o2 : Outcome DataLegacy) :
    (mkClientV1 ck cp).authHeader = "Bearer " ++ ck ∧
    (mkClientLegacy ck cp).authHeader = "Bearer " ++ ck ∧
    (getAdV1 (mkClientV1 ck cp) p o1).authHeader = "Bearer " ++ ck ∧
    (getAdLegacy (mkClientLegacy ck cp) p o2).authHeader = "Bearer " ++ ck ∧
    (bodyLegacy (mkClientLegacy ck cp) p).apiKey = some (p.apiKey.getD ck) ∧
    (bodyV1 (mkClientV1 ck cp) p).apiKey = p.apiKey := by
  exact ⟨rfl, rfl, rfl, rfl, rfl, rfl⟩

/-- C10: a legacy client constructed with a client-level relevancy that is
falsy (0, null, or omitted) stores null as its default relevancy — the
constructor uses `params.relevancy || null` — so every legacy `getAd` call
that omits a per-call relevancy (or passes null) sends `relevancy: null`
rather than 0; the v1 constructor uses `?? null` and preserves a configured
relevancy of 0, which such calls then send. -/
theorem legacy_relevancy_zero_becomes_null (ck : String) (cp : ClientParams)
    (p : AdParams)
    (hfalsy : cp.relevancy = some (some 0) ∨ cp.relevancy = some none ∨
      cp.relevancy = none)
    (hcall : p.relevancy = none ∨ p.relevancy = some none) :
    (mkClientLegacy ck cp).relevancy = none ∧
    (bodyLegacy (mkClientLegacy ck cp) p).relevancy = some none ∧
    (mkClientV1 ck { cp with relevancy := some (some 0) }).relevancy
      = some 0 ∧
    (bodyV1 (mkClientV1 ck { cp with relevancy := some (some 0) }) p).relevancy
      = some (some 0) := by
  rcases hfalsy with h | h | h <;> rcases hcall with h2 | h2 <;>
    refine ⟨?_, ?_, ?_, ?_⟩ <;>
      simp [mkClientLegacy, mkClientV1, bodyLegacy, bodyV1, jsOrNullNum,
        nullishNum, *]

/-- Witness for `legacy_relevancy_zero_becomes_null`: a legacy client
configured with relevancy 0 and a call omitting relevancy sends null, while
the v1 client preserves the 0. -/
theorem legacy_relevancy_zero_becomes_null_witness :
    (mkClientLegacy "k" { relevancy := some (some 0) }).relevancy = none ∧
    (bodyLegacy (mkClientLegacy "k" { relevancy := some (some 0) }) {}).relevancy
      = some none ∧
    (mkClientV1 "k" { relevancy := some (some 0) }).relevancy = some 0 := by
  have h := legacy_relevancy_zero_becomes_null "k"
    { relevancy := some (some 0) } {} (Or.inl rfl) (Or.inl rfl)
  exact ⟨h.1, h.2.1, h.2.2.1⟩

end Gravity
